import Mathlib

/-!
Verification of the BICAMS Brazil normative calculator
(`bicams_brazil_ptbr.py`).

The scoring pipeline is embedded shallowly:
raw score → scaled score (interval-table lookup) → predicted scaled score
(linear regression) → z-score → percentile (standard normal CDF) →
categorical classification.  Integer inputs are modelled as `ℤ`, the
regression coefficients as exact rationals, and the real-valued pipeline
(z-score, percentile, classification) over `ℝ`, with `scipy.stats.norm.cdf`
embedded as the CDF of the standard Gaussian measure.
-/

namespace BICAMS

open scoped BigOperators

/-- The two sex categories of the interface: "Masculino" is encoded as `M`,
"Feminino" as `F` (`sex = "M" if sex_display == "Masculino" else "F"`). -/
inductive Sex where
  | M : Sex
  | F : Sex
  deriving DecidableEq, Repr

/-- The three BICAMS measures, named as the keys of `regression_models`
and `conversion_table` in the source. -/
inductive Measure where
  | CVLT_totaldeacertos : Measure
  | BVMT_Total : Measure
  | SDMT : Measure
  deriving DecidableEq, Repr

/-- Per-measure regression coefficients and residual standard deviation,
as in the `regression_models` dictionary. -/
structure RegressionModel where
  constant : ℚ
  age : ℚ
  age2 : ℚ
  sex : ℚ
  education : ℚ
  residual_sd : ℚ
  deriving DecidableEq, Repr

/-- The `regression_models` dictionary of the source.  Fields in order:
constant, age, age2, sex, education, residual_sd. -/
def regression_models : Measure → RegressionModel
  | Measure.CVLT_totaldeacertos => ⟨8.512324, -0.14798, 0.001373, 0.176426, 0.364315, 2.527166⟩
  | Measure.BVMT_Total => ⟨11.58455, -0.14752, 0.000896, -0.19042, 0.22895, 2.626665⟩
  | Measure.SDMT => ⟨9.248778, -0.01094, -0.00086, -0.4714, 0.263055, 2.48323⟩

/-- An interval endpoint of the conversion table: `-np.inf`, a finite
integer, or `np.inf`. -/
inductive Bound where
  | ninf : Bound
  | fin : ℤ → Bound
  | pinf : Bound
  deriving DecidableEq, Repr

/-- Evaluation of `low <= raw_score` for a lower endpoint. -/
def lower_le (b : Bound) (r : ℤ) : Bool :=
  match b with
  | Bound.ninf => true
  | Bound.fin n => n ≤ r
  | Bound.pinf => false

/-- Evaluation of `raw_score <= high` for an upper endpoint. -/
def le_upper (r : ℤ) (b : Bound) : Bool :=
  match b with
  | Bound.ninf => false
  | Bound.fin n => r ≤ n
  | Bound.pinf => true

/-- The test `low <= raw_score <= high` of `convert_to_scaled_score`. -/
def in_interval (r : ℤ) (lh : Bound × Bound) : Bool :=
  lower_le lh.1 r && le_upper r lh.2

/-- The `conversion_table` dictionary: for each measure, the list of
`(scaled_score, (low, high))` entries in insertion order. -/
def conversion_table : Measure → List (ℕ × Bound × Bound)
  | Measure.CVLT_totaldeacertos =>
      [(1, Bound.ninf, Bound.fin 19), (2, Bound.fin 20, Bound.fin 28),
       (3, Bound.fin 29, Bound.fin 31), (4, Bound.fin 32, Bound.fin 35),
       (5, Bound.fin 36, Bound.fin 39), (6, Bound.fin 40, Bound.fin 41),
       (7, Bound.fin 42, Bound.fin 44), (8, Bound.fin 45, Bound.fin 48),
       (9, Bound.fin 49, Bound.fin 52), (10, Bound.fin 53, Bound.fin 56),
       (11, Bound.fin 57, Bound.fin 60), (12, Bound.fin 61, Bound.fin 64),
       (13, Bound.fin 65, Bound.fin 66), (14, Bound.fin 67, Bound.fin 69),
       (15, Bound.fin 70, Bound.fin 71), (16, Bound.fin 72, Bound.fin 72),
       (17, Bound.fin 73, Bound.fin 74), (18, Bound.fin 75, Bound.fin 75),
       (19, Bound.fin 76, Bound.pinf)]
  | Measure.BVMT_Total =>
      [(1, Bound.ninf, Bound.fin 2), (2, Bound.fin 3, Bound.fin 5),
       (3, Bound.fin 6, Bound.fin 8), (4, Bound.fin 9, Bound.fin 12),
       (5, Bound.fin 13, Bound.fin 17), (6, Bound.fin 18, Bound.fin 20),
       (7, Bound.fin 21, Bound.fin 23), (8, Bound.fin 24, Bound.fin 26),
       (9, Bound.fin 27, Bound.fin 28), (10, Bound.fin 29, Bound.fin 30),
       (11, Bound.fin 31, Bound.fin 32), (12, Bound.fin 33, Bound.fin 34),
       (13, Bound.fin 35, Bound.fin 35), (14, Bound.fin 36, Bound.fin 36)]
  | Measure.SDMT =>
      [(1, Bound.ninf, Bound.fin 9), (2, Bound.fin 10, Bound.fin 17),
       (3, Bound.fin 18, Bound.fin 23), (4, Bound.fin 24, Bound.fin 29),
       (5, Bound.fin 30, Bound.fin 36), (6, Bound.fin 37, Bound.fin 43),
       (7, Bound.fin 44, Bound.fin 49), (8, Bound.fin 50, Bound.fin 53),
       (9, Bound.fin 54, Bound.fin 58), (10, Bound.fin 59, Bound.fin 62),
       (11, Bound.fin 63, Bound.fin 68), (12, Bound.fin 69, Bound.fin 74),
       (13, Bound.fin 75, Bound.fin 79), (14, Bound.fin 80, Bound.fin 93),
       (15, Bound.fin 94, Bound.fin 107), (16, Bound.fin 108, Bound.pinf)]

/-- `convert_to_scaled_score`: scan the measure's table in order and return
the scaled score of the first interval containing the raw score; `np.nan`
(no match) is modelled as `none`. -/
def convert_to_scaled_score (raw_score : ℤ) (measure : Measure) : Option ℕ :=
  (List.find? (fun e => in_interval raw_score e.2) (conversion_table measure)).map Prod.fst

/-- The sex encoding of `calculate_predicted_scaled_score`:
`sex_for_model = 1 if sex == 'M' else 2`. -/
def sex_for_model (sex : Sex) : ℚ :=
  if sex = Sex.M then 1 else 2

/-- `calculate_predicted_scaled_score`: the fixed linear regression
`pss = constant + age_coef*age + age2_coef*age² + sex_coef*sex_for_model
+ education_coef*education`. -/
def calculate_predicted_scaled_score (age : ℤ) (sex : Sex) (education : ℤ)
    (measure : Measure) : ℚ :=
  let model := regression_models measure
  let age2 : ℤ := age ^ 2
  model.constant + model.age * (age : ℚ) + model.age2 * (age2 : ℚ) +
    model.sex * sex_for_model sex + model.education * (education : ℚ)

/-- One classification tuple returned by `interpret_percentile`:
standard-score range, percentile range, Portuguese label, English label,
display color. -/
structure Classification where
  score_range : String
  percentile_range : String
  label_pt : String
  label_en : String
  color : String
  deriving DecidableEq, Repr

/-- The tuple returned for `percentile >= 98`. -/
def cls_exceptionally_high : Classification :=
  ⟨">130", ">98", "Excepcionalmente Alto", "Exceptionally High", "#00008B"⟩

/-- The tuple returned for `90 <= percentile < 98`. -/
def cls_above_average : Classification :=
  ⟨"120-129", "91-97", "Acima da Média", "Above Average", "#0000FF"⟩

/-- The tuple returned for `75 <= percentile < 90`. -/
def cls_high_average : Classification :=
  ⟨"110-119", "75-90", "Médio-Alto", "High Average", "#00FFFF"⟩

/-- The tuple returned for `25 <= percentile < 75`. -/
def cls_average : Classification :=
  ⟨"90-109", "25-74", "Médio", "Average", "#00FF00"⟩

/-- The tuple returned for `9 <= percentile < 25`. -/
def cls_low_average : Classification :=
  ⟨"80-89", "9-24", "Médio-Baixo", "Low Average", "#FFD700"⟩

/-- The tuple returned for `2 <= percentile < 9`. -/
def cls_below_average : Classification :=
  ⟨"70-79", "2-8", "Abaixo da Média", "Below Average", "#FF4500"⟩

/-- The tuple returned by the final `else` branch. -/
def cls_exceptionally_low : Classification :=
  ⟨"<70", "<2", "Excepcionalmente Baixo", "Exceptionally Low", "#FF0000"⟩

/-- `interpret_percentile`: the if/elif/else chain of the source, over real
percentiles. -/
noncomputable def interpret_percentile (percentile : ℝ) : Classification :=
  if 98 ≤ percentile then cls_exceptionally_high
  else if 90 ≤ percentile ∧ percentile < 98 then cls_above_average
  else if 75 ≤ percentile ∧ percentile < 90 then cls_high_average
  else if 25 ≤ percentile ∧ percentile < 75 then cls_average
  else if 9 ≤ percentile ∧ percentile < 25 then cls_low_average
  else if 2 ≤ percentile ∧ percentile < 9 then cls_below_average
  else cls_exceptionally_low

/-- The seven percentile bands of `interpret_percentile`, as the guard of
each branch paired with the classification that branch returns. -/
noncomputable def bands : List ((ℝ → Prop) × Classification) :=
  [(fun p => 98 ≤ p, cls_exceptionally_high),
   (fun p => 90 ≤ p ∧ p < 98, cls_above_average),
   (fun p => 75 ≤ p ∧ p < 90, cls_high_average),
   (fun p => 25 ≤ p ∧ p < 75, cls_average),
   (fun p => 9 ≤ p ∧ p < 25, cls_low_average),
   (fun p => 2 ≤ p ∧ p < 9, cls_below_average),
   (fun p => p < 2, cls_exceptionally_low)]

/-- `scipy.stats.norm.cdf`: the cumulative distribution function of the
standard normal distribution. -/
noncomputable def Phi (z : ℝ) : ℝ :=
  ProbabilityTheory.cdf (ProbabilityTheory.gaussianReal 0 1) z

/-- The z-score of `main`: `z = (scaled - pss) / residual_sd`. -/
noncomputable def z_score_of (measure : Measure) (scaled : ℕ) (pss : ℝ) : ℝ :=
  ((scaled : ℝ) - pss) / ((regression_models measure).residual_sd : ℝ)

/-- One computed test entry of `report_data`: display name, z-score,
percentile, and the Portuguese classification label (the plot figure, a
pure presentation artifact, is omitted). -/
structure TestResult where
  name : String
  z_score : ℝ
  percentile : ℝ
  classification : String

/-- The per-test computation of `main`: look up the scaled score; if the
lookup is undefined (`np.isnan`), produce nothing; otherwise compute the
predicted scaled score, z-score, percentile `Phi(z) * 100`, and the
classification label. -/
noncomputable def process_test (raw_score : ℤ) (age : ℤ) (sex : Sex) (education : ℤ)
    (measure : Measure) (display_name : String) : Option TestResult :=
  match convert_to_scaled_score raw_score measure with
  | none => none
  | some scaled =>
      let pss := calculate_predicted_scaled_score age sex education measure
      let z := z_score_of measure scaled (pss : ℝ)
      let percentile := Phi z * 100
      let c := interpret_percentile percentile
      some ⟨display_name, z, percentile, c.label_pt⟩

/-- Display name of the SDMT test in `main`. -/
def sdmt_name : String := "Symbol Digit Modalities Test (SDMT)"

/-- Display name of the CVLT test in `main`. -/
def cvlt_name : String := "California Verbal Learning Test - Second Edition (CVLT-II)"

/-- Display name of the BVMT test in `main`. -/
def bvmt_name : String := "Brief Visuospatial Memory Test - Revised (BVMT-R)"

/-- The `report_data` list built by `main`: tests are processed in source
order (SDMT, then CVLT, then BVMT); a `none` raw score ("Não se aplica")
or an undefined lookup contributes no entry. -/
noncomputable def main_report_data (age : ℤ) (sex : Sex) (education : ℤ)
    (sdmt_raw cvlt_raw bvmt_raw : Option ℤ) : List TestResult :=
  (match sdmt_raw with
   | none => []
   | some r => (process_test r age sex education Measure.SDMT sdmt_name).toList) ++
  (match cvlt_raw with
   | none => []
   | some r => (process_test r age sex education Measure.CVLT_totaldeacertos cvlt_name).toList) ++
  (match bvmt_raw with
   | none => []
   | some r => (process_test r age sex education Measure.BVMT_Total bvmt_name).toList)

/-- The integer raw-score domain accepted by the interface for each
measure (the slider/number-input bounds of `main`): 0..80 for CVLT,
0..36 for BVMT, 0..120 for SDMT. -/
def raw_domain : Measure → Finset ℤ
  | Measure.CVLT_totaldeacertos => Finset.Icc 0 80
  | Measure.BVMT_Total => Finset.Icc 0 36
  | Measure.SDMT => Finset.Icc 0 120

/-- The largest scaled score of each measure's conversion table. -/
def max_scaled : Measure → ℕ
  | Measure.CVLT_totaldeacertos => 19
  | Measure.BVMT_Total => 14
  | Measure.SDMT => 16

/-- The adjacency check for two consecutive conversion-table entries: the
upper endpoint of the first and the lower endpoint of the second are
finite, both look up to their own entry's scaled score, and the two scaled
scores differ by exactly 1. -/
def adjacent_step (measure : Measure) (e1 e2 : ℕ × Bound × Bound) : Bool :=
  match e1.2.2, e2.2.1 with
  | Bound.fin h, Bound.fin l =>
      decide (convert_to_scaled_score h measure = some e1.1) &&
      decide (convert_to_scaled_score l measure = some e2.1) &&
      decide (e2.1 = e1.1 + 1)
  | _, _ => false

/-- Claim C3: `calculate_predicted_scaled_score` is exactly the fixed
linear formula `c + b_age*age + b_age2*age² + b_sex*sex_code +
b_edu*education` with each measure's coefficients, where the sex encoding
maps `M` to 1 and `F` to 2; every integer age and education is accepted
(the function is total) and simply extrapolated. -/
theorem predicted_score_is_linear_formula (age education : ℤ) (sex : Sex) :
    sex_for_model Sex.M = 1 ∧ sex_for_model Sex.F = 2 ∧
    calculate_predicted_scaled_score age sex education Measure.CVLT_totaldeacertos
      = 8.512324 + (-0.14798) * (age : ℚ) + 0.001373 * (age : ℚ) ^ 2 +
        0.176426 * sex_for_model sex + 0.364315 * (education : ℚ) ∧
    calculate_predicted_scaled_score age sex education Measure.BVMT_Total
      = 11.58455 + (-0.14752) * (age : ℚ) + 0.000896 * (age : ℚ) ^ 2 +
        (-0.19042) * sex_for_model sex + 0.22895 * (education : ℚ) ∧
    calculate_predicted_scaled_score age sex education Measure.SDMT
      = 9.248778 + (-0.01094) * (age : ℚ) + (-0.00086) * (age : ℚ) ^ 2 +
        (-0.4714) * sex_for_model sex + 0.263055 * (education : ℚ) := by
  refine ⟨rfl, rfl, ?_, ?_, ?_⟩ <;>
    · simp only [calculate_predicted_scaled_score, regression_models]
      push_cast
      ring

set_option maxRecDepth 4000 in
/-- Claim C4: for each measure, the conversion-table intervals are
pairwise non-overlapping and cover the measure's full interface domain
(0..80 for CVLT, 0..36 for BVMT, 0..120 for SDMT): every integer raw
score in the domain is contained in exactly one interval, and
`convert_to_scaled_score` returns a defined scaled score for it. -/
theorem conversion_table_partitions_domain :
    ∀ m : Measure, ∀ r ∈ raw_domain m,
      (conversion_table m).countP (fun e => in_interval r e.2) = 1 ∧
      (convert_to_scaled_score r m).isSome = true := by
  intro m
  cases m <;> decide

/-- Witness for C4 at the concrete raw score 60 of the SDMT domain. -/
theorem conversion_table_partitions_domain_witness :
    (60 : ℤ) ∈ raw_domain Measure.SDMT ∧
    ((conversion_table Measure.SDMT).countP (fun e => in_interval 60 e.2) = 1 ∧
      (convert_to_scaled_score 60 Measure.SDMT).isSome = true) :=
  ⟨by decide, conversion_table_partitions_domain Measure.SDMT 60 (by decide)⟩

/-- Claim C8: for each measure and each pair of consecutive intervals of
its conversion table, the raw score at the upper endpoint of the first
interval and the raw score at the lower endpoint of the second look up to
scaled scores differing by exactly 1. -/
theorem adjacent_boundaries_step_by_one :
    ∀ m : Measure,
      (((conversion_table m).zip (conversion_table m).tail).all
        (fun pq => adjacent_step m pq.1 pq.2)) = true := by
  intro m
  cases m <;> decide

/-- Claim C10: whenever `convert_to_scaled_score` returns a defined value,
it lies between 1 and the measure's maximum scaled score (19 for CVLT,
14 for BVMT, 16 for SDMT). -/
theorem scaled_score_in_range (r : ℤ) (m : Measure) (s : ℕ)
    (h : convert_to_scaled_score r m = some s) : 1 ≤ s ∧ s ≤ max_scaled m := by
  rcases Option.map_eq_some'.mp h with ⟨e, hfind, hes⟩
  have hmem := List.mem_of_find?_eq_some hfind
  have hall : ∀ e2 ∈ conversion_table m, 1 ≤ e2.1 ∧ e2.1 ≤ max_scaled m := by
    cases m <;> decide
  rw [← hes]
  exact hall e hmem

/-- Witness for C10 at raw score 60 of SDMT, which scales to 10. -/
theorem scaled_score_in_range_witness :
    convert_to_scaled_score 60 Measure.SDMT = some 10 ∧
    (1 ≤ 10 ∧ 10 ≤ max_scaled Measure.SDMT) :=
  ⟨by decide, scaled_score_in_range 60 Measure.SDMT 10 (by decide)⟩

/-- Claim C6: a raw score whose table lookup is undefined is silently
dropped: the per-test computation produces no `TestResult`, and the report
data equals what it would be had that test not been administered, for each
of the three test slots, with no error surfaced. -/
theorem out_of_range_silently_excluded (r age education : ℤ) (sex : Sex) :
    (∀ m name, convert_to_scaled_score r m = none →
      process_test r age sex education m name = none) ∧
    (convert_to_scaled_score r Measure.SDMT = none →
      ∀ c b, main_report_data age sex education (some r) c b =
        main_report_data age sex education none c b) ∧
    (convert_to_scaled_score r Measure.CVLT_totaldeacertos = none →
      ∀ s b, main_report_data age sex education s (some r) b =
        main_report_data age sex education s none b) ∧
    (convert_to_scaled_score r Measure.BVMT_Total = none →
      ∀ s c, main_report_data age sex education s c (some r) =
        main_report_data age sex education s c none) := by
  have hp : ∀ m name, convert_to_scaled_score r m = none →
      process_test r age sex education m name = none := by
    intro m name h
    simp [process_test, h]
  refine ⟨hp, ?_, ?_, ?_⟩ <;> intro h x y <;> simp [main_report_data, hp _ _ h]

/-- Witness for C6: raw score 37 is outside every BVMT interval, and the
corresponding test is dropped. -/
theorem out_of_range_silently_excluded_witness :
    convert_to_scaled_score 37 Measure.BVMT_Total = none ∧
    process_test 37 40 Sex.M 12 Measure.BVMT_Total bvmt_name = none :=
  ⟨by decide,
    (out_of_range_silently_excluded 37 40 12 Sex.M).1 Measure.BVMT_Total bvmt_name (by decide)⟩

/-- Claim C9: the BVMT conversion table has no upper-unbounded interval,
and every raw score above 36 has an undefined lookup; for CVLT and SDMT
the last interval is unbounded above, so every sufficiently large raw
score maps to the top scaled score (19 and 16 respectively). -/
theorem bvmt_bounded_above_others_not :
    (∀ e ∈ conversion_table Measure.BVMT_Total, e.2.2 ≠ Bound.pinf) ∧
    (∀ r : ℤ, 36 < r → convert_to_scaled_score r Measure.BVMT_Total = none) ∧
    (∀ r : ℤ, 76 ≤ r → convert_to_scaled_score r Measure.CVLT_totaldeacertos = some 19) ∧
    (∀ r : ℤ, 108 ≤ r → convert_to_scaled_score r Measure.SDMT = some 16) := by
  refine ⟨by decide, ?_, ?_, ?_⟩
  · intro r hr
    rw [convert_to_scaled_score, Option.map_eq_none', List.find?_eq_none]
    intro e he
    fin_cases he <;> simp [in_interval, lower_le, le_upper] <;> omega
  · intro r hr
    have hfind : List.find? (fun e => in_interval r e.2)
        (conversion_table Measure.CVLT_totaldeacertos)
        = some (19, Bound.fin 76, Bound.pinf) := by
      simp [conversion_table, List.find?_cons_eq_some, in_interval, lower_le, le_upper]
      omega
    rw [convert_to_scaled_score, hfind]
    rfl
  · intro r hr
    have hfind : List.find? (fun e => in_interval r e.2)
        (conversion_table Measure.SDMT)
        = some (16, Bound.fin 108, Bound.pinf) := by
      simp [conversion_table, List.find?_cons_eq_some, in_interval, lower_le, le_upper]
      omega
    rw [convert_to_scaled_score, hfind]
    rfl

/-- Witness for C9 at raw scores 37 (BVMT), 500 (CVLT) and 500 (SDMT). -/
theorem bvmt_bounded_above_others_not_witness :
    convert_to_scaled_score 37 Measure.BVMT_Total = none ∧
    convert_to_scaled_score 500 Measure.CVLT_totaldeacertos = some 19 ∧
    convert_to_scaled_score 500 Measure.SDMT = some 16 :=
  ⟨bvmt_bounded_above_others_not.2.1 37 (by decide),
   bvmt_bounded_above_others_not.2.2.1 500 (by decide),
   bvmt_bounded_above_others_not.2.2.2 500 (by decide)⟩

/-- Claim C2: for every administered raw score with a defined lookup,
every measure and every demographic profile, the computed z-score is
exactly `(scaled - pss) / residual_sd` and the computed percentile is
exactly `Phi(z) * 100`, with no clamping applied. -/
theorem z_score_and_percentile_formula (raw age education : ℤ) (sex : Sex)
    (m : Measure) (name : String) (scaled : ℕ)
    (h : convert_to_scaled_score raw m = some scaled) :
    ∃ t : TestResult,
      process_test raw age sex education m name = some t ∧
      t.z_score = ((scaled : ℝ)
          - ((calculate_predicted_scaled_score age sex education m : ℚ) : ℝ))
        / (((regression_models m).residual_sd : ℚ) : ℝ) ∧
      t.percentile = Phi t.z_score * 100 := by
  refine ⟨⟨name,
    z_score_of m scaled ((calculate_predicted_scaled_score age sex education m : ℚ) : ℝ),
    Phi (z_score_of m scaled
      ((calculate_predicted_scaled_score age sex education m : ℚ) : ℝ)) * 100,
    (interpret_percentile (Phi (z_score_of m scaled
      ((calculate_predicted_scaled_score age sex education m : ℚ) : ℝ)) * 100)).label_pt⟩,
    ?_, rfl, rfl⟩
  simp [process_test, h]

/-- Witness for C2: the SDMT test at raw score 60 for a 40-year-old male
subject with 12 years of education. -/
theorem z_score_and_percentile_formula_witness :
    convert_to_scaled_score 60 Measure.SDMT = some 10 ∧
    (∃ t : TestResult,
      process_test 60 40 Sex.M 12 Measure.SDMT sdmt_name = some t ∧
      t.z_score = (((10 : ℕ) : ℝ)
          - ((calculate_predicted_scaled_score 40 Sex.M 12 Measure.SDMT : ℚ) : ℝ))
        / (((regression_models Measure.SDMT).residual_sd : ℚ) : ℝ) ∧
      t.percentile = Phi t.z_score * 100) :=
  ⟨by decide,
   z_score_and_percentile_formula 60 40 12 Sex.M Measure.SDMT sdmt_name 10 (by decide)⟩

/-- Claim C7: every residual standard deviation is positive; for a fixed
measure and scaled score the z-score is strictly decreasing in the
predicted scaled score; and the percentile `Phi(z) * 100` is monotone
non-decreasing in the z-score, over all real z-scores. -/
theorem z_score_and_percentile_monotone (m : Measure) (scaled : ℕ) :
    0 < (((regression_models m).residual_sd : ℚ) : ℝ) ∧
    (∀ p1 p2 : ℝ, p1 < p2 → z_score_of m scaled p2 < z_score_of m scaled p1) ∧
    (∀ z1 z2 : ℝ, z1 ≤ z2 → Phi z1 * 100 ≤ Phi z2 * 100) := by
  have hsd : 0 < (((regression_models m).residual_sd : ℚ) : ℝ) := by
    cases m <;> norm_num [regression_models]
  refine ⟨hsd, ?_, ?_⟩
  · intro p1 p2 hlt
    rw [z_score_of, z_score_of, div_lt_div_iff₀ hsd hsd]
    nlinarith [hsd, hlt]
  · intro z1 z2 hle
    have h : Phi z1 ≤ Phi z2 := by
      rw [Phi, Phi]
      exact (ProbabilityTheory.monotone_cdf _) hle
    linarith

/-- Witness for C7 at the SDMT measure, scaled score 10, predicted scores
0 and 1, and z-scores 0 and 1. -/
theorem z_score_and_percentile_monotone_witness :
    ((0 : ℝ) < 1 ∧ z_score_of Measure.SDMT 10 1 < z_score_of Measure.SDMT 10 0) ∧
    ((0 : ℝ) ≤ 1 ∧ Phi 0 * 100 ≤ Phi 1 * 100) :=
  ⟨⟨zero_lt_one,
    (z_score_and_percentile_monotone Measure.SDMT 10).2.1 0 1 zero_lt_one⟩,
   ⟨zero_le_one,
    (z_score_and_percentile_monotone Measure.SDMT 10).2.2 0 1 zero_le_one⟩⟩

/-- The CDF `Phi` as a set integral of the standard normal density. -/
theorem Phi_eq_integral (z : ℝ) :
    Phi z = ∫ x in Set.Iic z, ProbabilityTheory.gaussianPDFReal 0 1 x := by
  rw [Phi, ProbabilityTheory.cdf_eq_toReal,
    ProbabilityTheory.gaussianReal_apply_eq_integral 0 one_ne_zero (Set.Iic z),
    ENNReal.toReal_ofReal]
  exact MeasureTheory.integral_nonneg fun x => ProbabilityTheory.gaussianPDFReal_nonneg 0 1 x

/-- The standard normal density in closed form. -/
theorem gaussPdf_eq (x : ℝ) :
    ProbabilityTheory.gaussianPDFReal 0 1 x
      = (Real.sqrt (2 * Real.pi))⁻¹ * Real.exp (-(x ^ 2) / 2) := by
  rw [ProbabilityTheory.gaussianPDFReal]
  norm_num

/-- Rational bounds on `√(2π)`. -/
theorem sqrt_two_pi_bounds :
    (5 / 2 : ℝ) ≤ Real.sqrt (2 * Real.pi) ∧ Real.sqrt (2 * Real.pi) ≤ 2.51 := by
  have h2p : (0 : ℝ) ≤ 2 * Real.pi := by positivity
  have hs := Real.sq_sqrt h2p
  have hnn := Real.sqrt_nonneg (2 * Real.pi)
  constructor
  · nlinarith [Real.pi_gt_d6]
  · nlinarith [Real.pi_lt_d2]

/-- The standard normal density is everywhere at most `2/5`. -/
theorem gaussPdf_le (x : ℝ) : ProbabilityTheory.gaussianPDFReal 0 1 x ≤ 2 / 5 := by
  rw [gaussPdf_eq]
  have h1 : Real.exp (-(x ^ 2) / 2) ≤ 1 := by
    rw [Real.exp_le_one_iff]
    nlinarith [sq_nonneg x]
  have hpos : (0 : ℝ) < Real.sqrt (2 * Real.pi) := by
    linarith [sqrt_two_pi_bounds.1]
  have h2 : (Real.sqrt (2 * Real.pi))⁻¹ ≤ 2 / 5 := by
    rw [inv_le_comm₀ hpos (by norm_num)]
    linarith [sqrt_two_pi_bounds.1]
  nlinarith [Real.exp_pos (-(x ^ 2) / 2), inv_nonneg.mpr (Real.sqrt_nonneg (2 * Real.pi))]

/-- Lower bound for the standard normal density on an interval `[a, 0]`. -/
theorem gaussPdf_ge {a x : ℝ} (hax : a ≤ x) (hx : x ≤ 0) :
    (2.51 : ℝ)⁻¹ * Real.exp (-(a ^ 2) / 2) ≤ ProbabilityTheory.gaussianPDFReal 0 1 x := by
  rw [gaussPdf_eq]
  have hsq : x ^ 2 ≤ a ^ 2 := by nlinarith
  have hexp : Real.exp (-(a ^ 2) / 2) ≤ Real.exp (-(x ^ 2) / 2) :=
    Real.exp_le_exp.mpr (by linarith)
  have hpos : (0 : ℝ) < Real.sqrt (2 * Real.pi) := by
    linarith [sqrt_two_pi_bounds.1]
  have hinv : (2.51 : ℝ)⁻¹ ≤ (Real.sqrt (2 * Real.pi))⁻¹ :=
    inv_anti₀ hpos sqrt_two_pi_bounds.2
  exact mul_le_mul hinv hexp (Real.exp_pos _).le (inv_nonneg.mpr (Real.sqrt_nonneg _))

/-- The standard normal CDF at 0 is exactly one half. -/
theorem Phi_zero : Phi 0 = 1 / 2 := by
  have hint : MeasureTheory.Integrable (ProbabilityTheory.gaussianPDFReal 0 1) :=
    ProbabilityTheory.integrable_gaussianPDFReal 0 1
  have heven : ∀ x : ℝ, ProbabilityTheory.gaussianPDFReal 0 1 (-x)
      = ProbabilityTheory.gaussianPDFReal 0 1 x := by
    intro x
    rw [gaussPdf_eq, gaussPdf_eq, neg_pow]
    norm_num
  have h1 : (∫ x in Set.Iic (0 : ℝ), ProbabilityTheory.gaussianPDFReal 0 1 x)
      = ∫ x in Set.Ioi (0 : ℝ), ProbabilityTheory.gaussianPDFReal 0 1 x := by
    calc (∫ x in Set.Iic (0 : ℝ), ProbabilityTheory.gaussianPDFReal 0 1 x)
        = ∫ x in Set.Iic (0 : ℝ), ProbabilityTheory.gaussianPDFReal 0 1 (-x) := by
          refine MeasureTheory.setIntegral_congr_fun measurableSet_Iic ?_
          exact fun x _ => (heven x).symm
      _ = ∫ x in Set.Ioi (-(0 : ℝ)), ProbabilityTheory.gaussianPDFReal 0 1 x :=
          integral_comp_neg_Iic 0 _
      _ = ∫ x in Set.Ioi (0 : ℝ), ProbabilityTheory.gaussianPDFReal 0 1 x := by
          rw [neg_zero]
  have h2 := intervalIntegral.integral_Iic_add_Ioi (b := (0 : ℝ))
    hint.integrableOn hint.integrableOn
  have h3 : ∫ x, ProbabilityTheory.gaussianPDFReal 0 1 x = 1 :=
    ProbabilityTheory.integral_gaussianPDFReal_eq_one 0 one_ne_zero
  rw [Phi_eq_integral]
  linarith

/-- The drop of the CDF from 0 to a nonpositive point, as an integral. -/
theorem Phi_sub_eq {a : ℝ} (ha : a ≤ 0) :
    Phi 0 - Phi a = ∫ x in Set.Ioc a 0, ProbabilityTheory.gaussianPDFReal 0 1 x := by
  have hint : MeasureTheory.Integrable (ProbabilityTheory.gaussianPDFReal 0 1) :=
    ProbabilityTheory.integrable_gaussianPDFReal 0 1
  rw [Phi_eq_integral, Phi_eq_integral,
    intervalIntegral.integral_Iic_sub_Iic hint.integrableOn hint.integrableOn,
    intervalIntegral.integral_of_le ha]

/-- Upper estimate for the integral of the density over `Ioc a 0`. -/
theorem integral_Ioc_le {a : ℝ} (ha : a ≤ 0) :
    (∫ x in Set.Ioc a 0, ProbabilityTheory.gaussianPDFReal 0 1 x) ≤ -a * (2 / 5) := by
  have hint : MeasureTheory.IntegrableOn
      (ProbabilityTheory.gaussianPDFReal 0 1) (Set.Ioc a 0) :=
    (ProbabilityTheory.integrable_gaussianPDFReal 0 1).integrableOn
  have hconst : MeasureTheory.IntegrableOn (fun _ : ℝ => (2 / 5 : ℝ)) (Set.Ioc a 0) := by
    refine MeasureTheory.integrableOn_const.mpr (Or.inr ?_)
    rw [Real.volume_Ioc]
    exact ENNReal.ofReal_lt_top
  have h := MeasureTheory.setIntegral_mono_on hint hconst measurableSet_Ioc
    (fun x _ => gaussPdf_le x)
  rw [MeasureTheory.setIntegral_const, Real.volume_Ioc,
    ENNReal.toReal_ofReal (by linarith), smul_eq_mul] at h
  linarith

/-- Lower estimate for the integral of the density over `Ioc a 0`. -/
theorem integral_Ioc_ge {a : ℝ} (ha : a ≤ 0) :
    -a * ((2.51 : ℝ)⁻¹ * Real.exp (-(a ^ 2) / 2))
      ≤ ∫ x in Set.Ioc a 0, ProbabilityTheory.gaussianPDFReal 0 1 x := by
  have hint : MeasureTheory.IntegrableOn
      (ProbabilityTheory.gaussianPDFReal 0 1) (Set.Ioc a 0) :=
    (ProbabilityTheory.integrable_gaussianPDFReal 0 1).integrableOn
  have hconst : MeasureTheory.IntegrableOn
      (fun _ : ℝ => (2.51 : ℝ)⁻¹ * Real.exp (-(a ^ 2) / 2)) (Set.Ioc a 0) := by
    refine MeasureTheory.integrableOn_const.mpr (Or.inr ?_)
    rw [Real.volume_Ioc]
    exact ENNReal.ofReal_lt_top
  have h := MeasureTheory.setIntegral_mono_on hconst hint measurableSet_Ioc
    (fun x hx => gaussPdf_ge hx.1.le hx.2)
  rw [MeasureTheory.setIntegral_const, Real.volume_Ioc,
    ENNReal.toReal_ofReal (by linarith), smul_eq_mul] at h
  linarith

/-- Two-sided estimate for `Phi` at a small nonpositive argument `-d`. -/
theorem Phi_near_half {d : ℝ} (hd0 : 0 ≤ d) :
    1 / 2 - d * (2 / 5) ≤ Phi (-d) ∧
    Phi (-d) ≤ 1 / 2 - d * ((2.51 : ℝ)⁻¹ * (1 - d ^ 2 / 2)) := by
  have ha : -d ≤ 0 := by linarith
  have hsub := Phi_sub_eq ha
  rw [Phi_zero] at hsub
  have hub := integral_Ioc_le ha
  have hlb := integral_Ioc_ge ha
  constructor
  · have h1 : -(-d) * (2 / 5) = d * (2 / 5) := by ring
    linarith
  · have hexp : 1 - d ^ 2 / 2 ≤ Real.exp (-((-d) ^ 2) / 2) := by
      have h := Real.add_one_le_exp (-((-d) ^ 2) / 2)
      nlinarith
    have hmono : d * ((2.51 : ℝ)⁻¹ * (1 - d ^ 2 / 2))
        ≤ -(-d) * ((2.51 : ℝ)⁻¹ * Real.exp (-((-d) ^ 2) / 2)) := by
      have hpos : (0 : ℝ) < (2.51 : ℝ)⁻¹ := by norm_num
      nlinarith
    linarith

/-- Claim C1: for age 40, male encoding (sex_for_model = 1), education 12,
measure SDMT, raw score 60: the lookup places 60 in the interval (59, 62)
and returns scaled score 10; the predicted scaled score equals
9.248778 - 0.01094*40 - 0.00086*1600 - 0.4714*1 + 0.263055*12
(= 10.120438, about 10.12); the z-score equals (10 - pss)/2.48323 (about
-0.048); the percentile equals Phi(z)*100 and lies between 48 and 48.2
(about 48.1); and the result is classified in the 25 ≤ percentile < 75
band as "Médio"/"Average". -/
theorem sdmt_concrete_scenario :
    in_interval 60 (Bound.fin 59, Bound.fin 62) = true ∧
    convert_to_scaled_score 60 Measure.SDMT = some 10 ∧
    sex_for_model Sex.M = 1 ∧
    calculate_predicted_scaled_score 40 Sex.M 12 Measure.SDMT
      = 9.248778 - 0.01094 * 40 - 0.00086 * 1600 - 0.4714 * 1 + 0.263055 * 12 ∧
    ∃ t : TestResult,
      process_test 60 40 Sex.M 12 Measure.SDMT sdmt_name = some t ∧
      t.z_score = ((10 : ℝ)
        - ((calculate_predicted_scaled_score 40 Sex.M 12 Measure.SDMT : ℚ) : ℝ)) / 2.48323 ∧
      -0.0486 ≤ t.z_score ∧ t.z_score ≤ -0.0485 ∧
      t.percentile = Phi t.z_score * 100 ∧
      48 ≤ t.percentile ∧ t.percentile ≤ 48.2 ∧
      25 ≤ t.percentile ∧ t.percentile < 75 ∧
      interpret_percentile t.percentile = cls_average ∧
      t.classification = cls_average.label_pt := by
  have hconv : convert_to_scaled_score 60 Measure.SDMT = some 10 := by decide
  have hpss : calculate_predicted_scaled_score 40 Sex.M 12 Measure.SDMT
      = (10.120438 : ℚ) := by
    norm_num [calculate_predicted_scaled_score, regression_models, sex_for_model]
  have hzq : z_score_of Measure.SDMT 10
      ((calculate_predicted_scaled_score 40 Sex.M 12 Measure.SDMT : ℚ) : ℝ)
      = -(120438 / 2483230 : ℝ) := by
    rw [z_score_of, hpss]
    norm_num [regression_models]
  have hp48 : (48 : ℝ) ≤ Phi (-(120438 / 2483230 : ℝ)) * 100 := by
    have hphi := (Phi_near_half (d := (120438 / 2483230 : ℝ)) (by norm_num)).1
    have hnum : (120438 / 2483230 : ℝ) * (2 / 5) ≤ 0.02 := by norm_num
    linarith
  have hp482 : Phi (-(120438 / 2483230 : ℝ)) * 100 ≤ 48.2 := by
    have hphi := (Phi_near_half (d := (120438 / 2483230 : ℝ)) (by norm_num)).2
    have hnum : (0.018 : ℝ) ≤ (120438 / 2483230 : ℝ)
        * ((2.51 : ℝ)⁻¹ * (1 - (120438 / 2483230 : ℝ) ^ 2 / 2)) := by norm_num
    linarith
  have hcls : interpret_percentile (Phi (-(120438 / 2483230 : ℝ)) * 100) = cls_average := by
    have h1 : ¬(98 ≤ Phi (-(120438 / 2483230 : ℝ)) * 100) := by linarith
    have h2 : ¬(90 ≤ Phi (-(120438 / 2483230 : ℝ)) * 100 ∧
        Phi (-(120438 / 2483230 : ℝ)) * 100 < 98) := fun hc => by linarith [hc.1]
    have h3 : ¬(75 ≤ Phi (-(120438 / 2483230 : ℝ)) * 100 ∧
        Phi (-(120438 / 2483230 : ℝ)) * 100 < 90) := fun hc => by linarith [hc.1]
    have h4 : 25 ≤ Phi (-(120438 / 2483230 : ℝ)) * 100 ∧
        Phi (-(120438 / 2483230 : ℝ)) * 100 < 75 := ⟨by linarith, by linarith⟩
    simp only [interpret_percentile, if_neg h1, if_neg h2, if_neg h3, if_pos h4]
  have hproc : process_test 60 40 Sex.M 12 Measure.SDMT sdmt_name
      = some ⟨sdmt_name, -(120438 / 2483230 : ℝ),
          Phi (-(120438 / 2483230 : ℝ)) * 100,
          (interpret_percentile (Phi (-(120438 / 2483230 : ℝ)) * 100)).label_pt⟩ := by
    simp only [process_test, hconv]
    rw [hzq]
  refine ⟨by decide, hconv, rfl, by rw [hpss]; norm_num,
    ⟨sdmt_name, -(120438 / 2483230 : ℝ), Phi (-(120438 / 2483230 : ℝ)) * 100,
      (interpret_percentile (Phi (-(120438 / 2483230 : ℝ)) * 100)).label_pt⟩,
    hproc, ?_, ?_, ?_, rfl, hp48, hp482, ?_, ?_, hcls, ?_⟩
  · show -(120438 / 2483230 : ℝ) = ((10 : ℝ)
      - ((calculate_predicted_scaled_score 40 Sex.M 12 Measure.SDMT : ℚ) : ℝ)) / 2.48323
    rw [hpss]
    norm_num
  · show (-0.0486 : ℝ) ≤ -(120438 / 2483230 : ℝ)
    norm_num
  · show -(120438 / 2483230 : ℝ) ≤ -0.0485
    norm_num
  · show (25 : ℝ) ≤ Phi (-(120438 / 2483230 : ℝ)) * 100
    linarith
  · show Phi (-(120438 / 2483230 : ℝ)) * 100 < 75
    linarith
  · show (interpret_percentile (Phi (-(120438 / 2483230 : ℝ)) * 100)).label_pt
      = cls_average.label_pt
    rw [hcls]

/-- Any two bands whose guards both hold at the same percentile are the
same band: the seven guards are pairwise disjoint. -/
theorem bands_disjoint {p : ℝ} {c d : (ℝ → Prop) × Classification}
    (hc : c ∈ bands) (hd : d ∈ bands) (hcp : c.1 p) (hdp : d.1 p) : c = d := by
  simp only [bands] at hc hd
  fin_cases hc <;> fin_cases hd <;>
    first
      | rfl
      | (exfalso; simp only [] at hcp hdp; linarith [hcp, hdp])

/-- Claim C5: `interpret_percentile` is total on real percentiles: the
seven bands are fixed, pairwise non-overlapping, and cover all of ℝ, so
for every real percentile exactly one band guard holds and
`interpret_percentile` returns exactly that band's classification. -/
theorem classification_bands_partition (p : ℝ) :
    ∃! c : (ℝ → Prop) × Classification,
      c ∈ bands ∧ c.1 p ∧ interpret_percentile p = c.2 := by
  have hex : ∃ c : (ℝ → Prop) × Classification,
      c ∈ bands ∧ c.1 p ∧ interpret_percentile p = c.2 := by
    rcases le_or_lt 98 p with h1 | h1
    · refine ⟨(fun q => 98 ≤ q, cls_exceptionally_high), by simp [bands], h1, ?_⟩
      simp only [interpret_percentile, if_pos h1]
    rcases le_or_lt 90 p with h2 | h2
    · refine ⟨(fun q => 90 ≤ q ∧ q < 98, cls_above_average), by simp [bands], ⟨h2, h1⟩, ?_⟩
      simp only [interpret_percentile, if_neg (not_le.mpr h1),
        if_pos (show 90 ≤ p ∧ p < 98 from ⟨h2, h1⟩)]
    rcases le_or_lt 75 p with h3 | h3
    · refine ⟨(fun q => 75 ≤ q ∧ q < 90, cls_high_average), by simp [bands], ⟨h3, h2⟩, ?_⟩
      simp only [interpret_percentile, if_neg (not_le.mpr h1),
        if_neg (fun hc : 90 ≤ p ∧ p < 98 => absurd hc.1 (not_le.mpr h2)),
        if_pos (show 75 ≤ p ∧ p < 90 from ⟨h3, h2⟩)]
    rcases le_or_lt 25 p with h4 | h4
    · refine ⟨(fun q => 25 ≤ q ∧ q < 75, cls_average), by simp [bands], ⟨h4, h3⟩, ?_⟩
      simp only [interpret_percentile, if_neg (not_le.mpr h1),
        if_neg (fun hc : 90 ≤ p ∧ p < 98 => absurd hc.1 (not_le.mpr h2)),
        if_neg (fun hc : 75 ≤ p ∧ p < 90 => absurd hc.1 (not_le.mpr h3)),
        if_pos (show 25 ≤ p ∧ p < 75 from ⟨h4, h3⟩)]
    rcases le_or_lt 9 p with h5 | h5
    · refine ⟨(fun q => 9 ≤ q ∧ q < 25, cls_low_average), by simp [bands], ⟨h5, h4⟩, ?_⟩
      simp only [interpret_percentile, if_neg (not_le.mpr h1),
        if_neg (fun hc : 90 ≤ p ∧ p < 98 => absurd hc.1 (not_le.mpr h2)),
        if_neg (fun hc : 75 ≤ p ∧ p < 90 => absurd hc.1 (not_le.mpr h3)),
        if_neg (fun hc : 25 ≤ p ∧ p < 75 => absurd hc.1 (not_le.mpr h4)),
        if_pos (show 9 ≤ p ∧ p < 25 from ⟨h5, h4⟩)]
    rcases le_or_lt 2 p with h6 | h6
    · refine ⟨(fun q => 2 ≤ q ∧ q < 9, cls_below_average), by simp [bands], ⟨h6, h5⟩, ?_⟩
      simp only [interpret_percentile, if_neg (not_le.mpr h1),
        if_neg (fun hc : 90 ≤ p ∧ p < 98 => absurd hc.1 (not_le.mpr h2)),
        if_neg (fun hc : 75 ≤ p ∧ p < 90 => absurd hc.1 (not_le.mpr h3)),
        if_neg (fun hc : 25 ≤ p ∧ p < 75 => absurd hc.1 (not_le.mpr h4)),
        if_neg (fun hc : 9 ≤ p ∧ p < 25 => absurd hc.1 (not_le.mpr h5)),
        if_pos (show 2 ≤ p ∧ p < 9 from ⟨h6, h5⟩)]
    · refine ⟨(fun q => q < 2, cls_exceptionally_low), by simp [bands], h6, ?_⟩
      simp only [interpret_percentile, if_neg (not_le.mpr h1),
        if_neg (fun hc : 90 ≤ p ∧ p < 98 => absurd hc.1 (not_le.mpr h2)),
        if_neg (fun hc : 75 ≤ p ∧ p < 90 => absurd hc.1 (not_le.mpr h3)),
        if_neg (fun hc : 25 ≤ p ∧ p < 75 => absurd hc.1 (not_le.mpr h4)),
        if_neg (fun hc : 9 ≤ p ∧ p < 25 => absurd hc.1 (not_le.mpr h5)),
        if_neg (fun hc : 2 ≤ p ∧ p < 9 => absurd hc.1 (not_le.mpr h6))]
  obtain ⟨c, hc⟩ := hex
  exact ⟨c, hc, fun d hd => bands_disjoint hd.1 hc.1 hd.2.1 hc.2.1⟩

end BICAMS
